import Mathlib

/-!
Shallow embedding of the two-phase LLM redaction pipeline of src/redactor.py
(repository TheUSDX).  Pure configuration data, prompt/system-message
compilation, the two-phase orchestrator, the invocation adapter and the JSON
response normalizer are translated from the Python source.  The external
completion endpoint is a parameter (an oracle from requests to HTTP
responses); `json.loads` / `json.dumps` on the JSON path are likewise
parameters, since the source delegates them to the Python standard library.
-/

/-- Embeds `RedactionTechnique` (src/redactor.py lines 23-27). -/
inductive RedactionTechnique where
  | MASK
  | SUBSTITUTE
  | BOTH
deriving DecidableEq, Repr

/-- Embeds `SophisticationLevel` (src/redactor.py lines 30-35). -/
inductive SophisticationLevel where
  | MINIMAL
  | STANDARD
  | COMPREHENSIVE
  | PARANOID
deriving DecidableEq, Repr, Fintype

/-- The `.value` string of a `SophisticationLevel` member (Python enum values). -/
def SophisticationLevel.value : SophisticationLevel → String
  | .MINIMAL => "minimal"
  | .STANDARD => "standard"
  | .COMPREHENSIVE => "comprehensive"
  | .PARANOID => "paranoid"

/-- Position of a level in the documented order MINIMAL < STANDARD < COMPREHENSIVE < PARANOID. -/
def SophisticationLevel.idx : SophisticationLevel → Nat
  | .MINIMAL => 0
  | .STANDARD => 1
  | .COMPREHENSIVE => 2
  | .PARANOID => 3

/-- Embeds the `DataTypeConfig` dataclass (src/redactor.py lines 38-62):
one boolean per protected category, with the source's field defaults
(twelve on, eight extended categories off). -/
structure DataTypeConfig where
  names : Bool := true
  ssn : Bool := true
  phone_numbers : Bool := true
  email_addresses : Bool := true
  physical_addresses : Bool := true
  dates_of_birth : Bool := true
  financial_accounts : Bool := true
  medical_info : Bool := true
  biometric_data : Bool := true
  ip_addresses : Bool := true
  usernames : Bool := true
  passwords : Bool := true
  nicknames : Bool := false
  locations : Bool := false
  employers : Bool := false
  relationships : Bool := false
  educational_history : Bool := false
  physical_descriptions : Bool := false
  vehicle_info : Bool := false
  travel_history : Bool := false
deriving DecidableEq, Repr

/-- Embeds `DataTypeConfig.for_level` (src/redactor.py lines 64-94):
start from the field defaults, then apply the per-level deltas. -/
def DataTypeConfig.for_level (level : SophisticationLevel) : DataTypeConfig :=
  let cfg : DataTypeConfig := {}
  match level with
  | .MINIMAL =>
      { cfg with
        physical_addresses := false
        dates_of_birth := false
        financial_accounts := false
        medical_info := false
        biometric_data := false
        ip_addresses := false
        usernames := false }
  | .STANDARD => cfg
  | .COMPREHENSIVE =>
      { cfg with
        nicknames := true
        locations := true
        employers := true
        relationships := true }
  | .PARANOID =>
      { cfg with
        nicknames := true
        locations := true
        employers := true
        relationships := true
        educational_history := true
        physical_descriptions := true
        vehicle_info := true
        travel_history := true }

/-- The twenty protected categories, as an enumeration (used to state
set-level properties of the boolean record `DataTypeConfig`). -/
inductive Category where
  | names
  | ssn
  | phone_numbers
  | email_addresses
  | physical_addresses
  | dates_of_birth
  | financial_accounts
  | medical_info
  | biometric_data
  | ip_addresses
  | usernames
  | passwords
  | nicknames
  | locations
  | employers
  | relationships
  | educational_history
  | physical_descriptions
  | vehicle_info
  | travel_history
deriving DecidableEq, Repr, Fintype

/-- Whether a category's toggle is on in a `DataTypeConfig`. -/
def DataTypeConfig.enabled (cfg : DataTypeConfig) : Category → Bool
  | .names => cfg.names
  | .ssn => cfg.ssn
  | .phone_numbers => cfg.phone_numbers
  | .email_addresses => cfg.email_addresses
  | .physical_addresses => cfg.physical_addresses
  | .dates_of_birth => cfg.dates_of_birth
  | .financial_accounts => cfg.financial_accounts
  | .medical_info => cfg.medical_info
  | .biometric_data => cfg.biometric_data
  | .ip_addresses => cfg.ip_addresses
  | .usernames => cfg.usernames
  | .passwords => cfg.passwords
  | .nicknames => cfg.nicknames
  | .locations => cfg.locations
  | .employers => cfg.employers
  | .relationships => cfg.relationships
  | .educational_history => cfg.educational_history
  | .physical_descriptions => cfg.physical_descriptions
  | .vehicle_info => cfg.vehicle_info
  | .travel_history => cfg.travel_history

/-- All twenty categories, in the source's field order. -/
def allCategories : List Category :=
  [.names, .ssn, .phone_numbers, .email_addresses, .physical_addresses,
   .dates_of_birth, .financial_accounts, .medical_info, .biometric_data,
   .ip_addresses, .usernames, .passwords, .nicknames, .locations,
   .employers, .relationships, .educational_history, .physical_descriptions,
   .vehicle_info, .travel_history]

/-- The categories whose toggle is on, in canonical order. -/
def DataTypeConfig.trueSet (cfg : DataTypeConfig) : List Category :=
  allCategories.filter cfg.enabled

/-- Embeds the `RedactorConfig` dataclass (src/redactor.py lines 97-125).
The `temperature` float is omitted: it is passed opaquely to the transport
and inspected nowhere in the pipeline.  `data_types = None` (resolved by
`__post_init__` from the sophistication level) is modelled by the `Option`
together with `RedactorConfig.resolved_data_types` below. -/
structure RedactorConfig where
  technique : RedactionTechnique := .BOTH
  sophistication : SophisticationLevel := .STANDARD
  data_types : Option DataTypeConfig := none
  target_individuals : List String := []
  custom_patterns : List String := []
  mask_char : String := "*"
  mask_length : Nat := 3
  maintain_gender : Bool := true
  maintain_ethnicity_hints : Bool := false
  maintain_name_length : Bool := false
  model : Option String := none

/-- The `data_types` field as observed after `__post_init__`
(src/redactor.py lines 123-125): when omitted it is synthesized from the
sophistication level. -/
def RedactorConfig.resolved_data_types (c : RedactorConfig) : DataTypeConfig :=
  match c.data_types with
  | some dt => dt
  | none => DataTypeConfig.for_level c.sophistication

/-- Embeds the `Redactor` instance state (src/redactor.py lines 131-133):
one configuration and one substitution-consistency map. -/
structure Redactor where
  config : RedactorConfig
  substitution_map : List (String × String)

/-- Embeds `Redactor.__init__` (src/redactor.py lines 131-133):
`self.config = cfg or RedactorConfig()`, `self.substitution_map = dict()`. -/
def Redactor.init (cfg : Option RedactorConfig) : Redactor :=
  { config := cfg.getD {}, substitution_map := [] }

/-- Python string repetition `s * n`. -/
def pyRepeat (s : String) (n : Nat) : String :=
  String.join (List.replicate n s)

/-- Modelled from the spec: the ambient default model name
(`config.OPENROUTER_MODEL`, supplied by the host's configuration module,
which is not part of src/).  Its concrete value is irrelevant to every
verified property. -/
def OPENROUTER_MODEL : String := "openrouter-default-model"

/-- One request to the completion endpoint: the model name and the two
messages of src/redactor.py lines 419-426. -/
structure LLMCall where
  model : String
  system_message : String
  prompt : String
deriving DecidableEq, Repr

/-- One response from the completion endpoint.  `text` is the raw body
(`response.text`); `content` is the result of the extraction
`response.json()["choices"][0]["message"]["content"]` on that body
(`none` when the body is not of that shape). -/
structure HTTPResponse where
  status_code : Nat
  text : String
  content : Option String

/-- Failures raised by the pipeline.  `transportError` embeds the
`Exception` of src/redactor.py line 430 (it carries the status code and the
raw body interpolated into the message there); `malformedCompletion` the
extraction failure on a success response; `jsonDecodeError` and
`valueError` the two concrete exceptions of `redact_json`
(src/redactor.py lines 441-449), which the spec groups as
`MalformedResponseError`. -/
inductive RedactError where
  | transportError (status_code : Nat) (body : String)
  | malformedCompletion
  | jsonDecodeError (source_text : String)
  | valueError (msg : String)
deriving DecidableEq, Repr

/-- The request constructed by `_call_llm` (src/redactor.py lines 409-427):
model override falls back to the ambient default. -/
def llm_request (c : RedactorConfig) (prompt system_message : String) : LLMCall :=
  { model := c.model.getD OPENROUTER_MODEL
    system_message := system_message
    prompt := prompt }

/-- Embeds `Redactor._call_llm` (src/redactor.py lines 409-433) over an
oracle for the completion endpoint.  Returns the outcome together with the
single request issued. -/
def call_llm (llm : LLMCall → HTTPResponse) (c : RedactorConfig)
    (prompt system_message : String) :
    Except RedactError String × List LLMCall :=
  let call := llm_request c prompt system_message
  let response := llm call
  if response.status_code ≠ 200 then
    (.error (.transportError response.status_code response.text), [call])
  else
    match response.content with
    | some content => (.ok content, [call])
    | none => (.error .malformedCompletion, [call])

/-- The restricted mask-phase item list (src/redactor.py lines 271-283):
built only from the five highly sensitive toggles, in source order. -/
def mask_restricted_items (cfg : DataTypeConfig) : List String :=
  (if cfg.ssn then ["- Social Security Numbers (SSN)"] else []) ++
  (if cfg.passwords then ["- Passwords and security credentials"] else []) ++
  (if cfg.financial_accounts then ["- Bank account numbers, credit card numbers"] else []) ++
  (if cfg.medical_info then ["- Medical record numbers, diagnosis codes"] else []) ++
  (if cfg.biometric_data then ["- Biometric identifiers"] else [])

/-- The full-mode item list of `_get_all_data_types_description`
(src/redactor.py lines 326-369), in source order. -/
def all_data_type_items (cfg : DataTypeConfig) : List String :=
  (if cfg.names then ["- Personal names"] else []) ++
  (if cfg.ssn then ["- Social Security Numbers"] else []) ++
  (if cfg.phone_numbers then ["- Phone numbers"] else []) ++
  (if cfg.email_addresses then ["- Email addresses"] else []) ++
  (if cfg.physical_addresses then ["- Physical addresses"] else []) ++
  (if cfg.dates_of_birth then ["- Dates of birth"] else []) ++
  (if cfg.financial_accounts then ["- Financial account numbers"] else []) ++
  (if cfg.medical_info then ["- Medical information"] else []) ++
  (if cfg.biometric_data then ["- Biometric data"] else []) ++
  (if cfg.ip_addresses then ["- IP addresses"] else []) ++
  (if cfg.usernames then ["- Usernames"] else []) ++
  (if cfg.passwords then ["- Passwords"] else []) ++
  (if cfg.nicknames then ["- Nicknames and aliases"] else []) ++
  (if cfg.locations then ["- Location references"] else []) ++
  (if cfg.employers then ["- Employer information"] else []) ++
  (if cfg.relationships then ["- Relationship identifiers"] else []) ++
  (if cfg.educational_history then ["- Educational history"] else []) ++
  (if cfg.physical_descriptions then ["- Physical descriptions"] else []) ++
  (if cfg.vehicle_info then ["- Vehicle information"] else []) ++
  (if cfg.travel_history then ["- Travel history"] else [])

/-- The substitution-phase item list (src/redactor.py lines 288-323), in
source order.  Note the source checks only fifteen of the twenty toggles
here: ssn, passwords, financial_accounts, medical_info and biometric_data
have no branch in this method. -/
def substitution_items (cfg : DataTypeConfig) : List String :=
  (if cfg.names then ["- Personal names (first, last, full names)"] else []) ++
  (if cfg.nicknames then ["- Nicknames and aliases"] else []) ++
  (if cfg.phone_numbers then ["- Phone numbers (replace with different realistic numbers)"] else []) ++
  (if cfg.email_addresses then ["- Email addresses (replace with different realistic addresses)"] else []) ++
  (if cfg.physical_addresses then ["- Physical/mailing addresses"] else []) ++
  (if cfg.dates_of_birth then ["- Dates of birth (shift by random amount)"] else []) ++
  (if cfg.ip_addresses then ["- IP addresses"] else []) ++
  (if cfg.usernames then ["- Usernames and handles"] else []) ++
  (if cfg.locations then ["- Location references (cities, neighborhoods, landmarks)"] else []) ++
  (if cfg.employers then ["- Employer names and work locations"] else []) ++
  (if cfg.relationships then ["- Relationship identifiers (spouse name, children\x27s names)"] else []) ++
  (if cfg.educational_history then ["- Schools, universities, degrees"] else []) ++
  (if cfg.physical_descriptions then ["- Physical descriptions that could identify"] else []) ++
  (if cfg.vehicle_info then ["- Vehicle information (make, model, license plates)"] else []) ++
  (if cfg.travel_history then ["- Travel history and frequent locations"] else [])

/-- Embeds `Redactor._get_all_data_types_description`
(src/redactor.py lines 326-371).  The `mode` argument is unused in the
source body as well. -/
def all_data_types_description (cfg : DataTypeConfig) (mode : String) : String :=
  let items := all_data_type_items cfg
  if items.isEmpty then "- Standard PII" else String.intercalate "\n" items

/-- Embeds `Redactor._get_mask_data_types_description`
(src/redactor.py lines 265-286); `restricted` is the source's `partial`
flag (the first half of BOTH). -/
def mask_data_types_description (c : RedactorConfig) (restricted : Bool) : String :=
  let cfg := c.resolved_data_types
  if restricted then
    let items := mask_restricted_items cfg
    if items.isEmpty then "- No specific types for masking"
    else String.intercalate "\n" items
  else
    all_data_types_description cfg "mask"

/-- Embeds `Redactor._get_substitution_data_types_description`
(src/redactor.py lines 288-324). -/
def substitution_data_types_description (c : RedactorConfig) : String :=
  let cfg := c.resolved_data_types
  let items := substitution_items cfg
  if items.isEmpty then "- General PII as appropriate"
  else String.intercalate "\n" items

/-- Embeds `Redactor._get_individuals_description`
(src/redactor.py lines 373-383). -/
def individuals_description (c : RedactorConfig) : String :=
  if c.target_individuals.isEmpty then ""
  else
    let names := String.intercalate ", "
      (c.target_individuals.map (fun name => "\"" ++ name ++ "\""))
    "\nSPECIFIC INDIVIDUALS TO ALWAYS REDACT:\nThe following individuals must be redacted in all forms (full name, first name, last name, nicknames, references):\n"
      ++ names ++ "\n"

/-- Embeds `Redactor._get_patterns_description`
(src/redactor.py lines 385-394). -/
def patterns_description (c : RedactorConfig) : String :=
  if c.custom_patterns.isEmpty then ""
  else
    let pats := String.intercalate "\n"
      (c.custom_patterns.map (fun p => "- Pattern: " ++ p))
    "\nCUSTOM PATTERNS TO REDACT:\n" ++ pats ++ "\n"

/-- Embeds `Redactor._get_consistency_rules`
(src/redactor.py lines 396-407). -/
def consistency_rules (c : RedactorConfig) : String :=
  let rules :=
    (if c.maintain_gender then ["- Maintain apparent gender of names (male names -> male names)"] else []) ++
    (if c.maintain_ethnicity_hints then ["- Maintain cultural/ethnic characteristics of names where apparent"] else []) ++
    (if c.maintain_name_length then ["- Keep replacement names similar in length"] else [])
  if rules.isEmpty then "- Use any appropriate realistic replacements"
  else String.intercalate "\n" rules

/-- Embeds `Redactor._build_mask_prompt` (src/redactor.py lines 167-194). -/
def build_mask_prompt (c : RedactorConfig) (document mask : String)
    (restricted : Bool) : String :=
  let data_types := mask_data_types_description c restricted
  let individuals := individuals_description c
  let patterns := patterns_description c
  "Redact the following document by replacing sensitive information with \"" ++ mask
    ++ "\".\n\nDOCUMENT TO REDACT:\n---\n" ++ document
    ++ "\n---\n\nDATA TYPES TO REDACT WITH \"" ++ mask ++ "\":\n" ++ data_types
    ++ "\n\n" ++ individuals ++ "\n" ++ patterns
    ++ "\n\nINSTRUCTIONS:\n1. Replace each instance of the specified data types with exactly \"" ++ mask
    ++ "\"\n2. Preserve all other text exactly as-is, including formatting and whitespace\n3. Do NOT add explanations or commentary\n4. Return ONLY the redacted document\n\nREDACTED DOCUMENT:"

/-- Embeds `Redactor._build_substitution_prompt`
(src/redactor.py lines 196-225). -/
def build_substitution_prompt (c : RedactorConfig) (document : String) : String :=
  let data_types := substitution_data_types_description c
  let individuals := individuals_description c
  let rules := consistency_rules c
  "Redact the following document by replacing sensitive information with realistic substitute values.\n\nDOCUMENT TO REDACT:\n---\n"
    ++ document ++ "\n---\n\nDATA TYPES TO SUBSTITUTE:\n" ++ data_types
    ++ "\n\n" ++ individuals ++ "\n\nSUBSTITUTION RULES:\n" ++ rules
    ++ "\n- Use realistic, plausible replacement values\n- Maintain consistency: if \"John Smith\" becomes \"Robert Johnson\", use \"Robert Johnson\" throughout\n- Preserve the document\x27s readability and natural flow\n- Do NOT add explanations or commentary\n- Do NOT replace text already marked with \"***\" - leave those as-is\n- Return ONLY the redacted document\n\nREDACTED DOCUMENT:"

/-- The per-level scope phrase of the mask system message
(src/redactor.py lines 229-234). -/
def mask_level_desc : SophisticationLevel → String
  | .MINIMAL => "basic PII only"
  | .STANDARD => "standard PII and sensitive data"
  | .COMPREHENSIVE => "comprehensive sensitive data including indirect identifiers"
  | .PARANOID => "maximum privacy - anything that could lead to re-identification"

/-- Embeds `Redactor._build_mask_system_message`
(src/redactor.py lines 227-243). -/
def build_mask_system_message (c : RedactorConfig) (restricted : Bool) : String :=
  let scope := mask_level_desc c.sophistication
  let phase := if restricted then "first phase (masking critical data)" else "complete masking"
  "You are a privacy protection specialist performing document redaction.\nYour task is "
    ++ phase ++ " redaction at the " ++ c.sophistication.value ++ " level (" ++ scope
    ++ ").\nReplace sensitive data with the mask character exactly as instructed.\nPreserve document structure and non-sensitive content exactly.\nReturn only the redacted document with no additional text."

/-- The per-level scope phrase of the substitution system message
(src/redactor.py lines 247-252). -/
def substitution_level_desc : SophisticationLevel → String
  | .MINIMAL => "basic PII"
  | .STANDARD => "standard PII and sensitive data"
  | .COMPREHENSIVE => "comprehensive data including nicknames, locations, and indirect identifiers"
  | .PARANOID => "maximum privacy - replacing anything that could enable re-identification"

/-- Embeds `Redactor._build_substitution_system_message`
(src/redactor.py lines 245-263). -/
def build_substitution_system_message (c : RedactorConfig) : String :=
  let scope := substitution_level_desc c.sophistication
  "You are a privacy protection specialist performing document redaction via substitution.\nYour task is replacing "
    ++ scope
    ++ " with realistic equivalent values.\nFor names, use plausible alternative names that maintain readability.\nFor locations, use different but similar locations (same type: city->city, state->state).\nFor numbers, generate realistic alternatives of the same format.\nMaintain consistency: same original value = same replacement throughout.\nSkip any text already marked with \"***\" - those are intentionally masked.\nReturn only the redacted document with no additional text."

/-- Embeds `Redactor._redact_with_mask` (src/redactor.py lines 151-158). -/
def redact_with_mask (llm : LLMCall → HTTPResponse) (r : Redactor)
    (document : String) (restricted : Bool) :
    Except RedactError String × List LLMCall :=
  let mask := pyRepeat r.config.mask_char r.config.mask_length
  let prompt := build_mask_prompt r.config document mask restricted
  let system_msg := build_mask_system_message r.config restricted
  call_llm llm r.config prompt system_msg

/-- Embeds `Redactor._redact_with_substitution`
(src/redactor.py lines 160-165). -/
def redact_with_substitution (llm : LLMCall → HTTPResponse) (r : Redactor)
    (document : String) :
    Except RedactError String × List LLMCall :=
  let prompt := build_substitution_prompt r.config document
  let system_msg := build_substitution_system_message r.config
  call_llm llm r.config prompt system_msg

/-- Embeds `Redactor.redact` (src/redactor.py lines 135-149).  The outcome
is paired with the post-call instance state; no statement of the method
body assigns to `self`, so the state component is the input instance. -/
def Redactor.redact (llm : LLMCall → HTTPResponse) (r : Redactor)
    (document : String) :
    (Except RedactError String × List LLMCall) × Redactor :=
  match r.config.technique with
  | .MASK => (redact_with_mask llm r document false, r)
  | .SUBSTITUTE => (redact_with_substitution llm r document, r)
  | .BOTH =>
      let step1 := redact_with_mask llm r document true
      match step1.1 with
      | .error e => ((.error e, step1.2), r)
      | .ok masked =>
          let step2 := redact_with_substitution llm r masked
          ((step2.1, step1.2 ++ step2.2), r)

/-- The opening-brace character, written by code point. -/
def lbrace : Char := Char.ofNat 123

/-- The closing-brace character, written by code point. -/
def rbrace : Char := Char.ofNat 125

/-- Index of the first occurrence of a character in a list, if any. -/
def find_from (cs : List Char) (target : Char) : Option Nat :=
  match cs with
  | [] => none
  | c :: rest =>
      if c = target then some 0
      else (find_from rest target).map (· + 1)

/-- Python `str.find` for a single character: lowest index, or -1. -/
def py_find (s : String) (target : Char) : Int :=
  match find_from s.toList target with
  | some i => (i : Int)
  | none => -1

/-- Python `str.rfind` for a single character: highest index, or -1. -/
def py_rfind (s : String) (target : Char) : Int :=
  match find_from s.toList.reverse target with
  | some i => ((s.toList.length : Int) - 1 - (i : Int))
  | none => -1

/-- Python slice `s[start:stop]` for the index ranges reachable in
`redact_json` (a found index and a found index plus one, both
non-negative). -/
def py_slice (s : String) (start stop : Int) : String :=
  String.mk (((s.toList).drop start.toNat).take (stop.toNat - start.toNat))

/-- Embeds `Redactor.redact_json` (src/redactor.py lines 435-449).
`loads` and `dumps` abstract `json.loads` / `json.dumps(data, indent=2)`;
`loads` returns `none` exactly when the library parser would raise
`json.JSONDecodeError`. -/
def Redactor.redact_json {J : Type} (llm : LLMCall → HTTPResponse)
    (loads : String → Option J) (dumps : J → String)
    (r : Redactor) (data : J) :
    (Except RedactError J × List LLMCall) × Redactor :=
  let document := dumps data
  let out := r.redact llm document
  match out.1.1 with
  | .error e => ((.error e, out.1.2), out.2)
  | .ok redacted =>
      match loads redacted with
      | some v => ((.ok v, out.1.2), out.2)
      | none =>
          let start := py_find redacted lbrace
          let stop := py_rfind redacted rbrace + 1
          if start ≠ -1 ∧ start < stop then
            match loads (py_slice redacted start stop) with
            | some v => ((.ok v, out.1.2), out.2)
            | none => ((.error (.jsonDecodeError (py_slice redacted start stop)), out.1.2), out.2)
          else
            ((.error (.valueError "Failed to parse redacted output as JSON"), out.1.2), out.2)

/-- The configuration-boundary error of `create_redactor`
(src/redactor.py lines 472-473): Python raises
`ValueError` from the enum constructor, carrying the offending value. -/
inductive ConfigError where
  | invalidTechnique (value : String)
  | invalidSophistication (value : String)
deriving DecidableEq, Repr

/-- The message of the configuration error, as Python's enum lookup
formats it. -/
def ConfigError.message : ConfigError → String
  | .invalidTechnique v => "\x27" ++ v ++ "\x27 is not a valid RedactionTechnique"
  | .invalidSophistication v => "\x27" ++ v ++ "\x27 is not a valid SophisticationLevel"

/-- Python `RedactionTechnique(value)`: enum lookup by value. -/
def RedactionTechnique.ofValue (s : String) : Option RedactionTechnique :=
  if s = "mask" then some .MASK
  else if s = "substitute" then some .SUBSTITUTE
  else if s = "both" then some .BOTH
  else none

/-- Python `SophisticationLevel(value)`: enum lookup by value. -/
def SophisticationLevel.ofValue (s : String) : Option SophisticationLevel :=
  if s = "minimal" then some .MINIMAL
  else if s = "standard" then some .STANDARD
  else if s = "comprehensive" then some .COMPREHENSIVE
  else if s = "paranoid" then some .PARANOID
  else none

/-- Embeds `create_redactor` (src/redactor.py lines 452-483).  The factory
is pure: its body contains no transport call, so the request trace of a
factory invocation is empty by construction. -/
def create_redactor (technique : String := "both")
    (sophistication : String := "standard")
    (target_individuals : Option (List String) := none)
    (custom_patterns : Option (List String) := none) :
    Except ConfigError Redactor × List LLMCall :=
  match RedactionTechnique.ofValue technique with
  | none => (.error (.invalidTechnique technique), [])
  | some tech =>
      match SophisticationLevel.ofValue sophistication with
      | none => (.error (.invalidSophistication sophistication), [])
      | some soph =>
          let cfg : RedactorConfig :=
            { technique := tech
              sophistication := soph
              target_individuals := target_individuals.getD []
              custom_patterns := custom_patterns.getD [] }
          (.ok (Redactor.init (some cfg)), [])

/-- The five highly sensitive categories of the restricted mask phase, in
the order the source tests them. -/
def sensitiveFive : List Category :=
  [.ssn, .passwords, .financial_accounts, .medical_info, .biometric_data]

/-- The fifteen categories the substitution-phase list can mention, in the
order the source tests them. -/
def substitutableCategories : List Category :=
  [.names, .nicknames, .phone_numbers, .email_addresses, .physical_addresses,
   .dates_of_birth, .ip_addresses, .usernames, .locations, .employers,
   .relationships, .educational_history, .physical_descriptions,
   .vehicle_info, .travel_history]

/-- The item line the restricted mask phase emits for each of the five
sensitive categories (arbitrary on the other fifteen). -/
def restrictedLabel : Category → String
  | .ssn => "- Social Security Numbers (SSN)"
  | .passwords => "- Passwords and security credentials"
  | .financial_accounts => "- Bank account numbers, credit card numbers"
  | .medical_info => "- Medical record numbers, diagnosis codes"
  | .biometric_data => "- Biometric identifiers"
  | _ => ""

/-- The item line the substitution phase emits for each of the fifteen
substitutable categories (arbitrary on the five sensitive ones). -/
def substitutionLabel : Category → String
  | .names => "- Personal names (first, last, full names)"
  | .nicknames => "- Nicknames and aliases"
  | .phone_numbers => "- Phone numbers (replace with different realistic numbers)"
  | .email_addresses => "- Email addresses (replace with different realistic addresses)"
  | .physical_addresses => "- Physical/mailing addresses"
  | .dates_of_birth => "- Dates of birth (shift by random amount)"
  | .ip_addresses => "- IP addresses"
  | .usernames => "- Usernames and handles"
  | .locations => "- Location references (cities, neighborhoods, landmarks)"
  | .employers => "- Employer names and work locations"
  | .relationships => "- Relationship identifiers (spouse name, children\x27s names)"
  | .educational_history => "- Schools, universities, degrees"
  | .physical_descriptions => "- Physical descriptions that could identify"
  | .vehicle_info => "- Vehicle information (make, model, license plates)"
  | .travel_history => "- Travel history and frequent locations"
  | _ => ""

/-- Whether one character list starts with another. -/
def startsWithL : List Char → List Char → Bool
  | _, [] => true
  | [], _ :: _ => false
  | a :: as, b :: bs => a = b && startsWithL as bs

/-- Whether `needle` occurs as a contiguous run inside `haystack`. -/
def hasInfixL (needle : List Char) : List Char → Bool
  | [] => needle.isEmpty
  | c :: rest => startsWithL (c :: rest) needle || hasInfixL needle rest

/-- Substring test on strings, by code points. -/
def strContains (haystack needle : String) : Bool :=
  hasInfixL needle.toList haystack.toList

/-- The mask round's request in BOTH mode (and, with `restricted = false`,
in MASK mode): the request `_redact_with_mask` hands to `_call_llm`. -/
def mask_round_request (c : RedactorConfig) (document : String)
    (restricted : Bool) : LLMCall :=
  llm_request c
    (build_mask_prompt c document (pyRepeat c.mask_char c.mask_length) restricted)
    (build_mask_system_message c restricted)

/-- The substitution round's request: the request
`_redact_with_substitution` hands to `_call_llm`. -/
def substitution_round_request (c : RedactorConfig) (document : String) : LLMCall :=
  llm_request c (build_substitution_prompt c document)
    (build_substitution_system_message c)

/-- A `DataTypeConfig` with every toggle off (expressible by explicit
override, as the source permits). -/
def allOffDataTypes : DataTypeConfig :=
  { names := false, ssn := false, phone_numbers := false,
    email_addresses := false, physical_addresses := false,
    dates_of_birth := false, financial_accounts := false,
    medical_info := false, biometric_data := false, ip_addresses := false,
    usernames := false, passwords := false }

/-- A configuration whose explicit data-type override disables every
category. -/
def allOffConfig : RedactorConfig :=
  { data_types := some allOffDataTypes }

/-- The default configuration (technique BOTH, sophistication STANDARD). -/
def standardConfig : RedactorConfig := {}

/-- A completion oracle that always succeeds with the same content,
regardless of the request (a mocked endpoint). -/
def constantOracle (content : String) : LLMCall → HTTPResponse :=
  fun _ => { status_code := 200, text := "", content := some content }

/-- The prose-wrapped model output of the spec's recovery example. -/
def wrappedOutput : String :=
  "Here is the result: \x7b\"name\": \"***\"\x7d Thanks!"

/-- The JSON fragment between the outermost braces of `wrappedOutput`. -/
def innerJson : String := "\x7b\"name\": \"***\"\x7d"

/-- A toy parser standing in for `json.loads` in concrete witnesses: it
recognizes exactly the inner JSON fragment. -/
def toyLoads (s : String) : Option Nat :=
  if s = innerJson then some 7 else none

/-- A toy serializer standing in for `json.dumps` in concrete witnesses. -/
def toyDumps (_ : Nat) : String := "\x7b\"name\": \"John\"\x7d"

/-- A response standing for an HTTP 500 failure from the completion
endpoint. -/
def resp500 : HTTPResponse :=
  { status_code := 500, text := "Internal Server Error", content := none }

lemma filter_map_cons (p : Category → Bool) (f : Category → String)
    (c : Category) (cs : List Category) :
    ((c :: cs).filter p).map f = (if p c then [f c] else []) ++ (cs.filter p).map f := by
  by_cases h : p c <;> simp [List.filter_cons, h]

lemma mask_restricted_items_eq (cfg : DataTypeConfig) :
    mask_restricted_items cfg = (sensitiveFive.filter cfg.enabled).map restrictedLabel := by
  simp only [sensitiveFive, filter_map_cons, List.filter_nil, List.map_nil,
    DataTypeConfig.enabled, restrictedLabel, List.append_nil]
  simp [mask_restricted_items, List.append_assoc]

lemma substitution_items_eq (cfg : DataTypeConfig) :
    substitution_items cfg = (substitutableCategories.filter cfg.enabled).map substitutionLabel := by
  simp only [substitutableCategories, filter_map_cons, List.filter_nil, List.map_nil,
    DataTypeConfig.enabled, substitutionLabel, List.append_nil]
  simp [substitution_items, List.append_assoc]

lemma redact_state_eq (llm : LLMCall → HTTPResponse) (r : Redactor) (document : String) :
    (Redactor.redact llm r document).2 = r := by
  unfold Redactor.redact
  cases r.config.technique <;> simp only [] <;> split <;> rfl

lemma redact_json_state_eq {J : Type} (llm : LLMCall → HTTPResponse)
    (loads : String → Option J) (dumps : J → String) (r : Redactor) (data : J) :
    (Redactor.redact_json llm loads dumps r data).2 = r := by
  rcases hout : Redactor.redact llm r (dumps data) with ⟨⟨res, tr⟩, r2⟩
  have hr2 : r2 = r := by
    have h := redact_state_eq llm r (dumps data)
    rw [hout] at h
    exact h
  cases res with
  | error e => simp [Redactor.redact_json, hout, hr2]
  | ok redacted =>
      cases hl : loads redacted with
      | some v => simp [Redactor.redact_json, hout, hl, hr2]
      | none =>
          by_cases hc : py_find redacted lbrace ≠ -1 ∧
              py_find redacted lbrace < py_rfind redacted rbrace + 1
          · cases hl2 : loads (py_slice redacted (py_find redacted lbrace)
                (py_rfind redacted rbrace + 1)) <;>
              simp [Redactor.redact_json, hout, hl, hc, hl2, hr2]
          · simp [Redactor.redact_json, hout, hl, hc, hr2]

lemma redact_map_not_read (llm : LLMCall → HTTPResponse) (cfg : RedactorConfig)
    (m m' : List (String × String)) (document : String) :
    (Redactor.redact llm ⟨cfg, m⟩ document).1 = (Redactor.redact llm ⟨cfg, m'⟩ document).1 := by
  cases htech : cfg.technique
  case MASK =>
    simp only [Redactor.redact, htech]
    rfl
  case SUBSTITUTE =>
    simp only [Redactor.redact, htech]
    rfl
  case BOTH =>
    have hmask : redact_with_mask llm ⟨cfg, m'⟩ document true =
        redact_with_mask llm ⟨cfg, m⟩ document true := rfl
    have hsub : ∀ d, redact_with_substitution llm ⟨cfg, m'⟩ d =
        redact_with_substitution llm ⟨cfg, m⟩ d := fun _ => rfl
    simp only [Redactor.redact, htech, hmask, hsub]
    rcases hstep : redact_with_mask llm ⟨cfg, m⟩ document true with ⟨res, tr⟩
    cases res <;> simp [hstep]

lemma redact_json_map_not_read {J : Type} (llm : LLMCall → HTTPResponse)
    (loads : String → Option J) (dumps : J → String)
    (cfg : RedactorConfig) (m m' : List (String × String)) (data : J) :
    (Redactor.redact_json llm loads dumps ⟨cfg, m⟩ data).1 =
      (Redactor.redact_json llm loads dumps ⟨cfg, m'⟩ data).1 := by
  rcases hout : Redactor.redact llm ⟨cfg, m⟩ (dumps data) with ⟨⟨res, tr⟩, r2⟩
  rcases hout' : Redactor.redact llm ⟨cfg, m'⟩ (dumps data) with ⟨⟨res', tr'⟩, r2'⟩
  have hfst : (res, tr) = (res', tr') := by
    have h := redact_map_not_read llm cfg m m' (dumps data)
    rw [hout, hout'] at h
    exact h
  rw [Prod.mk.injEq] at hfst
  obtain ⟨hres, htr⟩ := hfst
  subst hres htr
  cases res with
  | error e => simp [Redactor.redact_json, hout, hout']
  | ok redacted =>
      cases hl : loads redacted with
      | some v => simp [Redactor.redact_json, hout, hout', hl]
      | none =>
          by_cases hc : py_find redacted lbrace ≠ -1 ∧
              py_find redacted lbrace < py_rfind redacted rbrace + 1
          · cases hl2 : loads (py_slice redacted (py_find redacted lbrace)
                (py_rfind redacted rbrace + 1)) <;>
              simp [Redactor.redact_json, hout, hout', hl, hc, hl2]
          · simp [Redactor.redact_json, hout, hout', hl, hc]

/-- C1: with technique BOTH, one call to `Redactor.redact` performs exactly
two LLM invocation rounds, the mask-phase round strictly before the
substitution-phase round; the document embedded in the substitution round's
prompt is exactly the text the mask round returned, and the value returned
is the substitution round's output.  (Stated for the rounds succeeding, as
the claim presupposes; a transport failure instead propagates, see C7.) -/
theorem both_performs_two_ordered_rounds (llm : LLMCall → HTTPResponse)
    (r : Redactor) (document masked final : String)
    (htech : r.config.technique = .BOTH)
    (h1s : (llm (mask_round_request r.config document true)).status_code = 200)
    (h1c : (llm (mask_round_request r.config document true)).content = some masked)
    (h2s : (llm (substitution_round_request r.config masked)).status_code = 200)
    (h2c : (llm (substitution_round_request r.config masked)).content = some final) :
    Redactor.redact llm r document =
      ((Except.ok final,
        [mask_round_request r.config document true,
         substitution_round_request r.config masked]), r) := by
  simp only [mask_round_request, substitution_round_request] at h1s h1c h2s h2c
  simp [Redactor.redact, htech, redact_with_mask, redact_with_substitution, call_llm,
    h1s, h1c, h2s, h2c, mask_round_request, substitution_round_request]

theorem both_performs_two_ordered_rounds_witness :
    Redactor.redact (constantOracle "OUT") (Redactor.init none) "doc" =
      ((Except.ok "OUT",
        [mask_round_request (Redactor.init none).config "doc" true,
         substitution_round_request (Redactor.init none).config "OUT"]),
       Redactor.init none) :=
  both_performs_two_ordered_rounds (constantOracle "OUT") (Redactor.init none)
    "doc" "OUT" "OUT" rfl rfl rfl rfl rfl

/-- C2: every line of the restricted (BOTH-mode first round) mask-phase
category list belongs to one of the five highly sensitive categories
(ssn, passwords, financial_accounts, medical_info, biometric_data) that is
enabled in the configured data types; no sophistication level enters the
computation. -/
theorem mask_phase_restricted_subset (c : RedactorConfig) (s : String)
    (hs : s ∈ mask_restricted_items c.resolved_data_types) :
    ∃ cat ∈ sensitiveFive,
      c.resolved_data_types.enabled cat = true ∧ s = restrictedLabel cat := by
  rw [mask_restricted_items_eq] at hs
  rcases List.mem_map.mp hs with ⟨cat, hcat, hlab⟩
  rcases List.mem_filter.mp hcat with ⟨hmem, hen⟩
  exact ⟨cat, hmem, hen, hlab.symm⟩

theorem mask_phase_restricted_subset_witness :
    ∃ cat ∈ sensitiveFive,
      standardConfig.resolved_data_types.enabled cat = true ∧
        "- Social Security Numbers (SSN)" = restrictedLabel cat :=
  mask_phase_restricted_subset standardConfig "- Social Security Numbers (SSN)" (by decide)

set_option maxRecDepth 8000 in
/-- C3 counterexample: in the default STANDARD configuration, ssn,
passwords, financial_accounts, medical_info and biometric_data are all
enabled, yet the substitution-phase category list mentions none of them —
the claim that every enabled category (including these five) appears in
the substitution list is false. -/
theorem substitution_list_omits_enabled_sensitive :
    standardConfig.resolved_data_types.ssn = true ∧
    standardConfig.resolved_data_types.passwords = true ∧
    standardConfig.resolved_data_types.financial_accounts = true ∧
    standardConfig.resolved_data_types.medical_info = true ∧
    standardConfig.resolved_data_types.biometric_data = true ∧
    strContains (substitution_data_types_description standardConfig) "SSN" = false ∧
    strContains (substitution_data_types_description standardConfig) "Social Security" = false ∧
    strContains (substitution_data_types_description standardConfig) "assword" = false ∧
    strContains (substitution_data_types_description standardConfig) "inancial" = false ∧
    strContains (substitution_data_types_description standardConfig) "ank account" = false ∧
    strContains (substitution_data_types_description standardConfig) "edical" = false ∧
    strContains (substitution_data_types_description standardConfig) "iometric" = false := by
  decide

/-- C3 (amended): the substitution-phase category list consists of exactly
the enabled categories among the fifteen substitutable ones; the five
highly sensitive categories (ssn, passwords, financial_accounts,
medical_info, biometric_data) never contribute a line, even when enabled. -/
theorem substitution_list_exactly_enabled_substitutable (c : RedactorConfig) :
    (∀ cat ∈ substitutableCategories,
        c.resolved_data_types.enabled cat = true →
        substitutionLabel cat ∈ substitution_items c.resolved_data_types) ∧
    (∀ s ∈ substitution_items c.resolved_data_types,
        ∃ cat ∈ substitutableCategories,
          c.resolved_data_types.enabled cat = true ∧ s = substitutionLabel cat) := by
  constructor
  · intro cat hmem hen
    rw [substitution_items_eq]
    exact List.mem_map.mpr ⟨cat, List.mem_filter.mpr ⟨hmem, hen⟩, rfl⟩
  · intro s hs
    rw [substitution_items_eq] at hs
    rcases List.mem_map.mp hs with ⟨cat, hcat, hlab⟩
    rcases List.mem_filter.mp hcat with ⟨hmem, hen⟩
    exact ⟨cat, hmem, hen, hlab.symm⟩

theorem substitution_list_exactly_enabled_substitutable_witness :
    substitutionLabel .names ∈ substitution_items standardConfig.resolved_data_types :=
  (substitution_list_exactly_enabled_substitutable standardConfig).1 .names
    (by decide) (by decide)

set_option maxRecDepth 8000 in
/-- C4: the per-level data-type configurations are monotone — whenever
L1 comes strictly before L2 in the order MINIMAL < STANDARD <
COMPREHENSIVE < PARANOID, every category enabled at L1 is enabled at L2. -/
theorem for_level_monotone :
    ∀ L1 L2 : SophisticationLevel, L1.idx < L2.idx →
      ∀ cat : Category,
        (DataTypeConfig.for_level L1).enabled cat = true →
        (DataTypeConfig.for_level L2).enabled cat = true := by
  decide

theorem for_level_monotone_witness :
    SophisticationLevel.MINIMAL.idx < SophisticationLevel.PARANOID.idx ∧
    (DataTypeConfig.for_level .MINIMAL).enabled .ssn = true ∧
    (DataTypeConfig.for_level .PARANOID).enabled .ssn = true :=
  ⟨by decide, by decide,
   for_level_monotone .MINIMAL .PARANOID (by decide) .ssn (by decide)⟩

/-- C5: the factory rejects any technique string or sophistication string
outside its enumeration, returning a configuration error that carries the
offending value (Python's ValueError message interpolates it), and issues
no request to the completion endpoint — its call trace is empty. -/
theorem create_redactor_rejects_unknown_enum (technique sophistication : String) :
    (RedactionTechnique.ofValue technique = none →
       create_redactor technique sophistication =
         (.error (.invalidTechnique technique), []) ∧
       (ConfigError.invalidTechnique technique).message =
         "\x27" ++ technique ++ "\x27 is not a valid RedactionTechnique") ∧
    (∀ tech, RedactionTechnique.ofValue technique = some tech →
       SophisticationLevel.ofValue sophistication = none →
       create_redactor technique sophistication =
         (.error (.invalidSophistication sophistication), []) ∧
       (ConfigError.invalidSophistication sophistication).message =
         "\x27" ++ sophistication ++ "\x27 is not a valid SophisticationLevel") := by
  constructor
  · intro h
    exact ⟨by simp [create_redactor, h], rfl⟩
  · intro tech htech hsoph
    exact ⟨by simp [create_redactor, htech, hsoph], rfl⟩

theorem create_redactor_rejects_unknown_enum_witness :
    create_redactor "redact-hard" "standard" =
      (.error (.invalidTechnique "redact-hard"), []) ∧
    create_redactor "both" "ultra" =
      (.error (.invalidSophistication "ultra"), []) :=
  ⟨((create_redactor_rejects_unknown_enum "redact-hard" "standard").1 (by decide)).1,
   ((create_redactor_rejects_unknown_enum "both" "ultra").2 .BOTH (by decide) (by decide)).1⟩

/-- C6: on the JSON path, when the pipeline's redaction round succeeds,
`redact_json` first attempts a direct parse of the returned text; if that
fails it parses the substring from the first opening brace to the last
closing brace and returns that parse's value when it succeeds (recovering
prose-wrapped JSON); when both attempts fail it returns an error rather
than a value. -/
theorem redact_json_parse_recovery {J : Type} (llm : LLMCall → HTTPResponse)
    (loads : String → Option J) (dumps : J → String)
    (r r' : Redactor) (data : J) (redacted : String) (trace : List LLMCall)
    (hred : Redactor.redact llm r (dumps data) = ((Except.ok redacted, trace), r')) :
    (∀ v, loads redacted = some v →
        Redactor.redact_json llm loads dumps r data = ((.ok v, trace), r')) ∧
    (∀ v, loads redacted = none →
        loads (py_slice redacted (py_find redacted lbrace)
          (py_rfind redacted rbrace + 1)) = some v →
        py_find redacted lbrace ≠ -1 →
        py_find redacted lbrace < py_rfind redacted rbrace + 1 →
        Redactor.redact_json llm loads dumps r data = ((.ok v, trace), r')) ∧
    (loads redacted = none →
        (py_find redacted lbrace = -1 ∨
         ¬ py_find redacted lbrace < py_rfind redacted rbrace + 1 ∨
         loads (py_slice redacted (py_find redacted lbrace)
           (py_rfind redacted rbrace + 1)) = none) →
        ∃ e, Redactor.redact_json llm loads dumps r data =
          ((Except.error e, trace), r')) := by
  refine ⟨?_, ?_, ?_⟩
  · intro v hv
    simp [Redactor.redact_json, hred, hv]
  · intro v hnone hv hs hlt
    simp [Redactor.redact_json, hred, hnone, hv, hs, hlt]
  · intro hnone hbad
    rcases hbad with h | h | h
    · exact ⟨.valueError "Failed to parse redacted output as JSON",
        by simp [Redactor.redact_json, hred, hnone, h]⟩
    · exact ⟨.valueError "Failed to parse redacted output as JSON",
        by simp [Redactor.redact_json, hred, hnone, h]⟩
    · by_cases hcond : py_find redacted lbrace ≠ -1 ∧
          py_find redacted lbrace < py_rfind redacted rbrace + 1
      · exact ⟨.jsonDecodeError (py_slice redacted (py_find redacted lbrace)
            (py_rfind redacted rbrace + 1)),
          by simp [Redactor.redact_json, hred, hnone, h, hcond]⟩
      · exact ⟨.valueError "Failed to parse redacted output as JSON",
          by simp [Redactor.redact_json, hred, hnone, hcond]⟩

theorem redact_json_parse_recovery_witness :
    Redactor.redact_json (constantOracle wrappedOutput) toyLoads toyDumps
        (Redactor.init none) 0 =
      ((Except.ok 7,
        [mask_round_request (Redactor.init none).config (toyDumps 0) true,
         substitution_round_request (Redactor.init none).config wrappedOutput]),
       Redactor.init none) :=
  (redact_json_parse_recovery (constantOracle wrappedOutput) toyLoads toyDumps
      (Redactor.init none) (Redactor.init none) 0 wrappedOutput
      [mask_round_request (Redactor.init none).config (toyDumps 0) true,
       substitution_round_request (Redactor.init none).config wrappedOutput]
      rfl).2.1 7 (by decide) (by decide) (by decide) (by decide)

/-- C7: a non-2xx response from the completion endpoint makes the
invocation adapter fail with a transport error carrying the status code
and the raw body (the source raises on any status other than 200), and
`redact` propagates that failure instead of returning a value. -/
theorem non_success_status_transport_error :
    (∀ (llm : LLMCall → HTTPResponse) (c : RedactorConfig) (prompt system_message : String),
        ¬ (200 ≤ (llm (llm_request c prompt system_message)).status_code ∧
            (llm (llm_request c prompt system_message)).status_code < 300) →
        call_llm llm c prompt system_message =
          (.error (.transportError (llm (llm_request c prompt system_message)).status_code
              (llm (llm_request c prompt system_message)).text),
           [llm_request c prompt system_message])) ∧
    (∀ resp : HTTPResponse, ¬ (200 ≤ resp.status_code ∧ resp.status_code < 300) →
        ∀ (r : Redactor) (document : String),
          ((Redactor.redact (fun _ => resp) r document).1).1 =
            .error (.transportError resp.status_code resp.text)) := by
  constructor
  · intro llm c prompt system_message h
    have hne : (llm (llm_request c prompt system_message)).status_code ≠ 200 := by omega
    simp [call_llm, hne]
  · intro resp h r document
    have hne : resp.status_code ≠ 200 := by omega
    cases htech : r.config.technique <;>
      simp [Redactor.redact, htech, redact_with_mask, redact_with_substitution, call_llm, hne]

theorem non_success_status_transport_error_witness :
    ((Redactor.redact (fun _ => resp500) (Redactor.init none) "Test document").1).1 =
      .error (.transportError 500 "Internal Server Error") :=
  non_success_status_transport_error.2 resp500 (by decide) (Redactor.init none)
    "Test document"

/-- C8 counterexample: the categories enabled at STANDARD but disabled at
MINIMAL number seven (physical_addresses, dates_of_birth,
financial_accounts, medical_info, biometric_data, ip_addresses,
usernames), not five as the claim states. -/
theorem minimal_removes_seven_not_five :
    ((DataTypeConfig.for_level .STANDARD).trueSet.filter
        (fun cat => !(DataTypeConfig.for_level .MINIMAL).enabled cat)).length = 7 ∧
    ¬ ((DataTypeConfig.for_level .STANDARD).trueSet.filter
        (fun cat => !(DataTypeConfig.for_level .MINIMAL).enabled cat)).length = 5 := by
  decide

/-- C8 (amended): MINIMAL equals the STANDARD default set with exactly
seven categories removed (physical_addresses, dates_of_birth,
financial_accounts, medical_info, biometric_data, ip_addresses,
usernames); COMPREHENSIVE equals it with exactly four added (nicknames,
locations, employers, relationships); PARANOID enables all twenty. -/
theorem level_delta_characterization :
    (DataTypeConfig.for_level .STANDARD).trueSet =
      [.names, .ssn, .phone_numbers, .email_addresses, .physical_addresses,
       .dates_of_birth, .financial_accounts, .medical_info, .biometric_data,
       .ip_addresses, .usernames, .passwords] ∧
    (DataTypeConfig.for_level .MINIMAL).trueSet =
      [.names, .ssn, .phone_numbers, .email_addresses, .passwords] ∧
    ((DataTypeConfig.for_level .STANDARD).trueSet.filter
        (fun cat => !(DataTypeConfig.for_level .MINIMAL).enabled cat)) =
      [.physical_addresses, .dates_of_birth, .financial_accounts,
       .medical_info, .biometric_data, .ip_addresses, .usernames] ∧
    (DataTypeConfig.for_level .COMPREHENSIVE).trueSet =
      (DataTypeConfig.for_level .STANDARD).trueSet ++
        [.nicknames, .locations, .employers, .relationships] ∧
    (DataTypeConfig.for_level .PARANOID).trueSet = allCategories := by
  decide

/-- C9 counterexample: with every category disabled, the restricted
(BOTH-mode first round) mask-phase description is the single line
"- No specific types for masking", which does not state general or
standard PII as the claim asserts for all three phases. -/
theorem restricted_mask_fallback_not_pii :
    mask_restricted_items allOffConfig.resolved_data_types = [] ∧
    mask_data_types_description allOffConfig true = "- No specific types for masking" ∧
    strContains (mask_data_types_description allOffConfig true) "PII" = false := by
  decide

/-- C9 (amended): whenever the category set of a phase resolves empty,
the phase's description is a single phase-specific fallback line rather
than an empty list: "- No specific types for masking" for the restricted
mask phase, "- Standard PII" for the full mask phase, and "- General PII
as appropriate" for the substitution phase; each fallback is one line
(contains no newline). -/
theorem empty_category_fallback_lines (c : RedactorConfig) :
    (mask_restricted_items c.resolved_data_types = [] →
        mask_data_types_description c true = "- No specific types for masking") ∧
    (all_data_type_items c.resolved_data_types = [] →
        mask_data_types_description c false = "- Standard PII") ∧
    (substitution_items c.resolved_data_types = [] →
        substitution_data_types_description c = "- General PII as appropriate") ∧
    strContains "- No specific types for masking" "\n" = false ∧
    strContains "- Standard PII" "\n" = false ∧
    strContains "- General PII as appropriate" "\n" = false := by
  refine ⟨?_, ?_, ?_, by decide, by decide, by decide⟩
  · intro h
    simp [mask_data_types_description, h]
  · intro h
    simp [mask_data_types_description, all_data_types_description, h]
  · intro h
    simp [substitution_data_types_description, h]

theorem empty_category_fallback_lines_witness :
    mask_data_types_description allOffConfig true = "- No specific types for masking" ∧
    mask_data_types_description allOffConfig false = "- Standard PII" ∧
    substitution_data_types_description allOffConfig = "- General PII as appropriate" :=
  ⟨(empty_category_fallback_lines allOffConfig).1 (by decide),
   (empty_category_fallback_lines allOffConfig).2.1 (by decide),
   (empty_category_fallback_lines allOffConfig).2.2.1 (by decide)⟩

/-- C10: pipeline operations never touch instance state — a freshly
constructed Redactor has an empty substitution map; `redact` and
`redact_json` return the instance unchanged (configuration and map); their
results do not depend on the map's contents (it is never read); and any
sequence of `redact` calls leaves an instance built by the constructor
exactly as constructed, so the map stays empty for the instance's
lifetime. -/
theorem redactor_state_frame :
    (∀ cfg : Option RedactorConfig, (Redactor.init cfg).substitution_map = []) ∧
    (∀ (llm : LLMCall → HTTPResponse) (r : Redactor) (document : String),
        (Redactor.redact llm r document).2 = r) ∧
    (∀ (J : Type) (llm : LLMCall → HTTPResponse) (loads : String → Option J)
        (dumps : J → String) (r : Redactor) (data : J),
        (Redactor.redact_json llm loads dumps r data).2 = r) ∧
    (∀ (llm : LLMCall → HTTPResponse) (cfg : RedactorConfig)
        (m m' : List (String × String)) (document : String),
        (Redactor.redact llm ⟨cfg, m⟩ document).1 =
          (Redactor.redact llm ⟨cfg, m'⟩ document).1) ∧
    (∀ (J : Type) (llm : LLMCall → HTTPResponse) (loads : String → Option J)
        (dumps : J → String) (cfg : RedactorConfig)
        (m m' : List (String × String)) (data : J),
        (Redactor.redact_json llm loads dumps ⟨cfg, m⟩ data).1 =
          (Redactor.redact_json llm loads dumps ⟨cfg, m'⟩ data).1) ∧
    (∀ (llm : LLMCall → HTTPResponse) (cfg : Option RedactorConfig)
        (docs : List String),
        docs.foldl (fun r d => (Redactor.redact llm r d).2) (Redactor.init cfg) =
          Redactor.init cfg) := by
  refine ⟨fun _ => rfl, redact_state_eq, fun J => redact_json_state_eq,
    redact_map_not_read, fun J => redact_json_map_not_read, ?_⟩
  intro llm cfg docs
  induction docs with
  | nil => rfl
  | cons d ds ih =>
      rw [List.foldl_cons, redact_state_eq]
      exact ih
